import Mathlib

/-!
# Verification of the pump/raydium trading bot core

A shallow embedding of the trading bot's pool math, decision engine,
submission pipeline, signature-confirmation accounting, swap-instruction
builders and bot lifecycle (start/stop), with theorems checking the
natural-language specification against the code.

Machine integers are embedded as `Nat`/`Int` with explicit `% 2^w`
(or saturation) where the Rust source can overflow; `f64` arithmetic on
prices, percentages and lamport/SOL conversions is embedded over `ℚ`
(the comparisons settled here are sign-robust at the inputs used);
fallible paths return `Option`/an explicit outcome type.
-/

namespace TradingBot

/-! ## Pool math (`src/utils/utils.rs`, `src/utils/swap_quote.rs`) -/

/-- `u64::MAX`. -/
def u64Max : ℕ := 2 ^ 64 - 1

/-- `u64::saturating_mul`. -/
def satMul64 (a b : ℕ) : ℕ := min (a * b) u64Max

/-- `u64::saturating_add`. -/
def satAdd64 (a b : ℕ) : ℕ := min (a + b) u64Max

/-- `TRADE_FEE_RATE` from `utils.rs`. -/
def TRADE_FEE_RATE : ℕ := 2500

/-- `FEE_RATE` from `utils.rs`. -/
def FEE_RATE : ℕ := 10000

/-- `FEE_RATE_DENOMINATOR_VALUE` from `utils.rs`. -/
def FEE_RATE_DENOMINATOR_VALUE : ℕ := 1000000

/-- `ceil_div` from `utils.rs`:
`(token_amount.saturating_mul(fee_numerator).saturating_add(fee_denominator - 1)) / fee_denominator`.
The source panics when `fee_denominator == 0`; its only caller passes the
constant `1_000_000`, so the embedding is stated for the non-panicking case
and returns `0` on the panic branch. -/
def ceil_div (token_amount fee_numerator fee_denominator : ℕ) : ℕ :=
  if fee_denominator = 0 then 0
  else satAdd64 (satMul64 token_amount fee_numerator) (fee_denominator - 1) / fee_denominator

/-- `calculate_fee` from `utils.rs`. -/
def calculate_fee (amount fee_rate : ℕ) : ℕ :=
  ceil_div amount fee_rate FEE_RATE_DENOMINATOR_VALUE

/-- `get_amount_out` from `swap_quote.rs`, on `u128` arguments.
Rust `u128` addition/multiplication is embedded with an explicit
`% 2^128` reduction (release-mode wrapping semantics). -/
def get_amount_out (amount_in input_reserve output_reserve : ℕ) : ℕ :=
  if (input_reserve + amount_in) % 2 ^ 128 = 0 then 0
  else (amount_in * output_reserve % 2 ^ 128) / ((input_reserve + amount_in) % 2 ^ 128)

/-! ## Decision engine (`src/main.rs`, `display_pool_price_change`) -/

/-- The BUY decision of `display_pool_price_change` for a slot that is not
long (`!is_bought`), embedded over `ℚ`: the outer `old > 0.0` gate, the
guarded `percent = ((old - new)/old) * 100.0` and the trigger condition
`percent <= -entry_percent` from `main.rs:265-310`. Returns `true` exactly
when the code proceeds to record `bought_price`/`bought_at` and submit a
buy transaction. -/
def buyDecision (old new entry_percent : ℚ) : Bool :=
  if old > 0 then
    let percent : ℚ := if old > 0 then ((old - new) / old) * 100 else 0
    percent ≤ -entry_percent
  else false

/-- The four sell triggers of the long branch of
`display_pool_price_change` (`main.rs:335-399`), in source order. -/
inductive SellTrigger where
  | takeProfit
  | stopLoss
  | forced
  | timeout
  deriving DecidableEq, Repr

/-- `i64::MAX`. -/
def i64Max : ℕ := 2 ^ 63 - 1

/-- The `auto_exit * 1000` millisecond conversion of `main.rs:372-382`:
a `u64` product (wrapping embedded as `% 2^64`) followed by
`try_into::<i64>()` with the source's `1000` fallback on conversion
failure. -/
def autoExitMs (auto_exit : ℕ) : ℤ :=
  let prod := auto_exit * 1000 % 2 ^ 64
  if prod ≤ i64Max then (prod : ℤ) else 1000

/-- The PnL percentage of the long branch (`main.rs:313-324`): guarded by
`bought_price` being present and positive, else `0.0`. -/
def longPercent (new : ℚ) (bought_price : Option ℚ) : ℚ :=
  match bought_price with
  | some old_price => if old_price > 0 then ((new - old_price) / old_price) * 100 else 0
  | none => 0

/-- The sell decision of the long branch of `display_pool_price_change`
(`main.rs:335-399`): the `if / else if` chain take-profit, stop-loss,
forced exit (`auto_exit == 0`), timeout (`now - bought_at > auto_exit*1000`,
only when `bought_at` is present). At most one trigger fires per event. -/
def exitDecision (new : ℚ) (bought_price : Option ℚ) (take_profit stop_loss : ℚ)
    (auto_exit : ℕ) (bought_at : Option ℤ) (now : ℤ) : Option SellTrigger :=
  let percent := longPercent new bought_price
  if percent ≥ take_profit then some .takeProfit
  else if percent ≤ -stop_loss then some .stopLoss
  else if auto_exit = 0 then some .forced
  else
    match bought_at with
    | some bought_at_time =>
        if now - bought_at_time > autoExitMs auto_exit then some .timeout else none
    | none => none

/-! ## Instruction blobs (`src/instructions/swap_base_in.rs`, `src/instructions/sell.rs`)

The AMM instruction encoders are external collaborators producing opaque
blobs; the embedding keeps the fields the spec talks about (which accounts
and which atomic amounts each instruction carries). -/

/-- The deterministic associated-token-account address for `(owner, mint)`
(`get_associated_token_address`), embedded as an injective pairing. -/
def ataOf (owner mint : String) : String := owner ++ "/" ++ mint

/-- An assembled instruction, reduced to its observable parameters. -/
inductive Ix where
  | createAtaIdempotent (owner mint : String)
  | transfer (src dst : String) (lamports : ℕ)
  | syncNative (acct : String)
  | swapBaseIn (amount_in minimum_amount_out : ℕ)
  | closeAccount (acct owner : String)
  | pumpBuy (base_amount_out max_quote_amount_in : ℕ)
  | pumpSell (base_amount_in min_quote_amount_out : ℕ)
  deriving DecidableEq, Repr

/-! ## Data model (`src/backend/services/bot_service.rs`) -/

/-- `BotSettings` (the `Strategy` record), restricted to the fields the core
engine reads. `f64` strategy fields are embedded over `ℚ`. -/
structure BotSettings where
  pool_address : String
  buy_sol_amount : ℚ
  entry_percent : ℚ
  entry_slippage : ℚ
  exit_slippage : ℚ
  stop_loss : ℚ
  take_profit : ℚ
  auto_exit : ℕ
  confirm_service : String
  deriving DecidableEq, Repr

/-- `UserBotData` from `bot_service.rs`. -/
structure UserBotData where
  pool_id : String
  user_id : String
  private_key : String
  public_key : String
  bot_setting : BotSettings
  deriving DecidableEq, Repr

/-- `RealPoolInfo` from `bot_service.rs` (the per-(pool,user) position
slot). `Instant`/`Duration` values are embedded as abstract integer
timestamps; lamport deltas are `i128` embedded as `ℤ`. -/
structure RealPoolInfo where
  user_bot_data : UserBotData
  pool_price : ℚ
  latest_pool_price : ℚ
  swap_buy_ixs : List Ix
  is_bought : Bool
  bought_price : Option ℚ
  bought_at : Option ℤ
  initial_wsol_balance : Option ℚ
  signature : Option String
  start_time : Option ℤ
  last_profit_sol : Option ℚ
  last_input_lamports_delta : Option ℤ
  last_output_lamports_delta : Option ℤ
  last_roi_pct : Option ℚ
  last_duration : Option ℤ
  fee : ℚ
  deriving DecidableEq, Repr

/-! ## Signature confirmation (`src/main.rs`,
`RaydiumV4Process::process_user_data` lines 1208-1404; the PumpSwap
processor's tail, lines 2591-2748, is the same computation with the
duration block commented out) -/

/-- The part of a decoded on-chain transaction the confirmation tail reads:
its signature, the fee paid, whether the user's wrapped-native ATA appears
among the account keys, that account's pre/post lamport balances (`u64`,
cast to `i128` by the source), and the wall-clock instant of processing. -/
structure ConfirmEvent where
  signature : String
  fee : ℕ
  wsol_ata_present : Bool
  pre_lamports : ℕ
  post_lamports : ℕ
  now : ℤ
  deriving DecidableEq, Repr

/-- The confirmation tail of `process_user_data`, as the sequential effect
on the event user's slot. If the user's wrapped-native ATA is not among the
account keys the source returns early (`let Some(idx) = ... else return`).
On a signature match it toggles `is_bought`, accrues the fee, and stores the
lamport deltas; in the just-sold branch the source first **writes**
`last_output_lamports_delta` into the store and then re-**reads** that same
field before subtracting, which the embedding reproduces by reading the
field of the already-updated slot. -/
def confirmSignatureStep (slot : RealPoolInfo) (ev : ConfirmEvent) : RealPoolInfo :=
  if ¬ ev.wsol_ata_present then slot
  else
    match slot.signature with
    | none => slot
    | some sig =>
      if sig = ev.signature then
        let has_bought := !slot.is_bought
        let s1 := { slot with is_bought := has_bought, fee := slot.fee + (ev.fee : ℚ) }
        let pre_lamports : ℤ := ev.pre_lamports
        let post_lamports : ℤ := ev.post_lamports
        if has_bought then
          { s1 with last_input_lamports_delta := some (pre_lamports - post_lamports) }
        else
          let output_lamports_delta := post_lamports - pre_lamports
          let s2 := { s1 with last_output_lamports_delta := some output_lamports_delta }
          let last_output_lamports_delta := s2.last_output_lamports_delta
          let profit_sol : ℚ :=
            ((output_lamports_delta - last_output_lamports_delta.getD 0 : ℤ) : ℚ) / 1000000000
          let s3 := { s2 with last_profit_sol := some profit_sol }
          let last_input_lamports := s3.last_input_lamports_delta
          let input_sol : ℚ := ((last_input_lamports.getD 0 : ℤ) : ℚ) / 1000000000
          let roi : ℚ := if input_sol > 0 then (profit_sol / input_sol) * 100 else 0
          let s4 := { s3 with last_roi_pct := some roi }
          match s4.start_time with
          | some start_time => { s4 with last_duration := some (ev.now - start_time) }
          | none => s4
      else slot

/-- The store writes `process_user_data` performs on the slot before the
confirmation tail: the derived pool price into `latest_pool_price` and the
rebuilt instruction list into `swap_buy_ixs` (no other slot field is
written there). -/
def rebuildStep (slot : RealPoolInfo) (new_price : ℚ) (new_ixs : List Ix) : RealPoolInfo :=
  { slot with latest_pool_price := new_price, swap_buy_ixs := new_ixs }

/-- The whole per-event effect of `process_user_data` on an existing slot:
the rebuild writes followed by the confirmation tail. -/
def processUserDataStep (slot : RealPoolInfo) (new_price : ℚ) (new_ixs : List Ix)
    (ev : ConfirmEvent) : RealPoolInfo :=
  confirmSignatureStep (rebuildStep slot new_price new_ixs) ev

/-- Strategy record of the sample user. -/
def botSettingsA : BotSettings :=
  ⟨"POOL1", 1 / 100, 1, 5, 5, 5, 10, 3600, "JITO"⟩

/-- Sample user bot data. -/
def userBotDataA : UserBotData :=
  ⟨"POOL1", "user1", "sk", "pk", botSettingsA⟩

/-- A slot in the long state after a confirmed buy: `is_bought = true`,
a pending sell signature `sigSELL`, `10_000_000` lamports recorded as the
buy input delta and `0` as the prior output delta. -/
def slotLong : RealPoolInfo :=
  { user_bot_data := userBotDataA
    pool_price := 100
    latest_pool_price := 100
    swap_buy_ixs := []
    is_bought := true
    bought_price := some 100
    bought_at := some 0
    initial_wsol_balance := some 0
    signature := some "sigSELL"
    start_time := some 0
    last_profit_sol := none
    last_input_lamports_delta := some 10000000
    last_output_lamports_delta := some 0
    last_roi_pct := none
    last_duration := none
    fee := 1 / 100 }

/-- The confirming sell transaction: signature matches the slot's stored
`sigSELL` and the wrapped-native account gains `12_345_678` lamports
(`post - pre`), strictly more than the prior stored output delta `0`. -/
def evSell : ConfirmEvent :=
  ⟨"sigSELL", 5000, true, 5000000000, 5012345678, 1000⟩

/-! ## Swap builders (`src/instructions/swap_base_in.rs`,
`src/instructions/sell.rs`, assembled in `src/main.rs`) -/

/-- The wrapped-native mint, standing for `WSOL`. -/
def WSOL : String := "WSOL"

/-- `get_wrap_sol` of the Raydium base-in builder
(`swap_base_in.rs:64-71`): a system transfer of exactly
`buy_exact_in_param.amount_in` lamports into the user's wrapped-native ATA,
followed by `sync_native`. -/
def rayGetWrapSol (pubkey : String) (amount_in : ℕ) : List Ix :=
  let wsol_ata := ataOf pubkey WSOL
  [.transfer pubkey wsol_ata amount_in, .syncNative wsol_ata]

/-- `get_create_idempotent_ata_ix` of the Raydium base-in builder. -/
def rayGetCreateIdempotentAtaIx (owner base_mint quote_mint : String) : List Ix :=
  [.createAtaIdempotent owner base_mint, .createAtaIdempotent owner quote_mint]

/-- `get_swap_base_in_ix`, reduced to the amounts it encodes. -/
def rayGetSwapBaseInIx (amount_in minimum_amount_out : ℕ) : Ix :=
  .swapBaseIn amount_in minimum_amount_out

/-- `get_close_wsol` of the Raydium base-in builder. -/
def rayGetCloseWsol (pubkey : String) : Ix :=
  .closeAccount (ataOf pubkey WSOL) pubkey

/-- The buy-leg instruction list assembled by the Raydium processor
(`main.rs:1151-1187`, `has_bought = false`): idempotent ATA creation for
both mints, the native wrap, the swap, then the wrapped-account close. -/
def raydiumBuyIxs (owner input_mint output_mint : String)
    (amount_in minimum_amount_out : ℕ) : List Ix :=
  rayGetCreateIdempotentAtaIx owner input_mint output_mint ++
    rayGetWrapSol owner amount_in ++
    [rayGetSwapBaseInIx amount_in minimum_amount_out] ++
    [rayGetCloseWsol owner]

/-- The PumpSwap wrap amount `(amount_in as f64 * 1.1) as u64`
(`main.rs:1856`), embedded as the exact rational product truncated; for
the magnitudes used by the bot (below `2^53`) the double-precision product
truncates to the same integer. -/
def pumpWrapAmount (amount_in : ℕ) : ℕ :=
  (⌊(amount_in : ℚ) * 11 / 10⌋).toNat

/-- `get_wrap_sol` of the PumpSwap builder (`sell.rs:64-70`). -/
def pumpGetWrapSol (user : String) (sol_lamport : ℕ) : List Ix :=
  let wsol_ata := ataOf user WSOL
  [.transfer user wsol_ata sol_lamport, .syncNative wsol_ata]

/-- `get_create_idempotent_ata_ix` of the PumpSwap builder. -/
def pumpGetCreateIdempotentAtaIx (user base_mint quote_mint : String) : List Ix :=
  [.createAtaIdempotent user base_mint, .createAtaIdempotent user quote_mint]

/-- The buy-leg instruction list assembled by the PumpSwap processor for a
quote-side wrapped-native pool (`main.rs:1856-1874`, `has_bought = false`,
`quote_mint == WSOL`): ATA creation, the native wrap of
`floor(amount_in * 1.1)`, then the buy instruction. -/
def pumpSwapBuyIxs (user base_mint : String)
    (amount_in required_token_amount lamports_with_slippage : ℕ) : List Ix :=
  pumpGetCreateIdempotentAtaIx user base_mint WSOL ++
    pumpGetWrapSol user (pumpWrapAmount amount_in) ++
    [.pumpBuy required_token_amount lamports_with_slippage]

/-- The lamport amount carried by the first system transfer of an
instruction list (the native-wrap step of a buy leg). -/
def wrapTransferLamports : List Ix → Option ℕ
  | [] => none
  | .transfer _ _ lamports :: _ => some lamports
  | _ :: rest => wrapTransferLamports rest

/-! ## Submission pipeline (`src/main.rs`,
`build_and_submit_swap_transaction`, lines 406-647) -/

/-- The environment the pipeline interacts with: whether the Jito client
was initialized, whether the signed transaction decodes back
(`base64::decode` / `bincode::deserialize`), the simulation response
(`none`: the RPC call itself failed; `some e?`: a result whose `err` field
is `e?`), and the relay response (`none`: `send_transaction` failed;
`some data`: the returned signature string). -/
structure SubmitEnv where
  jito_initialized : Bool
  decode_ok : Bool
  sim_result : Option (Option String)
  relay_result : Option String
  deriving DecidableEq, Repr

/-- The outcomes `build_and_submit_swap_transaction` can produce:
`Ok(json error)`, `Ok(json simulation_error)`, `Err(_)` propagated by `?`,
or `Ok(json result)` after a successful relay submission. -/
inductive SubmitOutcome where
  | okError (msg : String)
  | okSimulationError
  | fatalError
  | okSuccess (sig : String)
  deriving DecidableEq, Repr

/-- `build_and_submit_swap_transaction`, as a function from the slot
snapshot and the environment to the outcome and the slot's new state.
The only store write in the source is `info.signature = Some(...)` inside
the relay-success branch; every other path returns with the store
untouched. -/
def buildAndSubmitSwapTransaction (slot : RealPoolInfo) (env : SubmitEnv) :
    SubmitOutcome × RealPoolInfo :=
  let buy_ixs := slot.swap_buy_ixs
  if buy_ixs.isEmpty then
    (.okError "No swap instructions to submit", slot)
  else if slot.user_bot_data.bot_setting.confirm_service = "JITO" then
    if ¬ env.jito_initialized then (.okError "Jito client not initialized", slot)
    else if ¬ env.decode_ok then (.fatalError, slot)
    else
      match env.sim_result with
      | none => (.okSimulationError, slot)
      | some (some _err) => (.okSimulationError, slot)
      | some none =>
        match env.relay_result with
        | none => (.okError "relay error", slot)
        | some data => (.okSuccess data, { slot with signature := some data })
  else (.okError "unknown confirmation service", slot)

/-! ## Lifecycle (`src/backend/services/bot_service.rs`,
`start_bot` lines 203-405, `stop_bot` lines 407-476) -/

/-- The two process-wide structures: the active-user registry `USER_LIST`
and the position store `REAL_POOL_INFO` (a map embedded as an association
list of pool id to slot list). -/
structure EngineState where
  user_list : List UserBotData
  real_pool_info : List (String × List RealPoolInfo)
  deriving DecidableEq, Repr

/-- The `is_bought` read of `stop_bot` (lines 414-423): iterate the
`pool_id` bucket and keep the last matching slot's flag, defaulting to
`false`. -/
def lookupIsBought (st : EngineState) (pool_id user_id : String) : Bool :=
  match st.real_pool_info.find? (fun pl => pl.1 = pool_id) with
  | none => false
  | some pl => pl.2.foldl
      (fun acc info => if info.user_bot_data.user_id = user_id then info.is_bought else acc)
      false

/-- Set a slot's strategy `auto_exit` to `0` (the forced-sell sentinel). -/
def setAutoExitZero (info : RealPoolInfo) : RealPoolInfo :=
  { info with user_bot_data :=
      { info.user_bot_data with bot_setting :=
          { info.user_bot_data.bot_setting with auto_exit := 0 } } }

/-- `stop_bot`. `bots` is the repository lookup result; the source calls
`bot.first().unwrap()` on it, so an empty list panics — embedded as `none`.
If the slot is not long, the user is removed from both the registry (the
source's `any`-then-`retain` equals the unconditional filter) and the store
(emptied pool buckets are pruned); if it is long, `auto_exit` is set to `0`
on the user's slots in the bot's pool bucket and nothing is removed. -/
def stopBot (bots : List BotSettings) (user_id : String) (st : EngineState) :
    Option (String × EngineState) :=
  match bots with
  | [] => none
  | bot_settings :: _ =>
    let pool_id := bot_settings.pool_address
    let is_bought := lookupIsBought st pool_id user_id
    if ¬ is_bought then
      let user_list' := st.user_list.filter (fun u => u.user_id ≠ user_id)
      let pools' :=
        (st.real_pool_info.map
          (fun pl => (pl.1, pl.2.filter (fun i => i.user_bot_data.user_id ≠ user_id)))).filter
          (fun pl => ¬ pl.2.isEmpty)
      some ("Stopped bot", ⟨user_list', pools'⟩)
    else
      let pools' := st.real_pool_info.map (fun pl =>
        if pl.1 = pool_id then
          (pl.1, pl.2.map (fun i =>
            if i.user_bot_data.user_id = user_id then setAutoExitZero i else i))
        else pl)
      some ("Stopped bot", ⟨st.user_list, pools'⟩)

/-- The HTTP-surface error kind relevant to the lifecycle checks. -/
inductive AppErrorKind where
  | notFound (msg : String)
  deriving DecidableEq, Repr

/-- The preflight checks of `start_bot` (lines 228-247): a missing user and
an empty bot-config list each return a `NotFound` error (no panic). -/
def startBotLookupChecks (user_found : Bool) (bots : List BotSettings) :
    Except AppErrorKind Unit :=
  if ¬ user_found then .error (.notFound "User not found")
  else if bots.isEmpty then .error (.notFound "Bot not found")
  else .ok ()

end TradingBot

namespace TradingBot

/-! ## Theorems: pool math -/

/-- C3: for atomic (`u64`-sized) amounts, `get_amount_out` returns the exact
integer quotient `(amount_in * output_reserve) / (input_reserve + amount_in)`
— the 128-bit intermediates cannot wrap — and returns `0` when
`input_reserve + amount_in = 0`. -/
theorem get_amount_out_spec (amount_in input_reserve output_reserve : ℕ)
    (ha : amount_in < 2 ^ 64) (hi : input_reserve < 2 ^ 64)
    (ho : output_reserve < 2 ^ 64) :
    get_amount_out amount_in input_reserve output_reserve =
      if input_reserve + amount_in = 0 then 0
      else amount_in * output_reserve / (input_reserve + amount_in) := by
  have hsum : input_reserve + amount_in < 2 ^ 128 := by
    calc input_reserve + amount_in < 2 ^ 64 + 2 ^ 64 := by omega
    _ ≤ 2 ^ 128 := by norm_num
  have hmul : amount_in * output_reserve < 2 ^ 128 := by
    calc amount_in * output_reserve < 2 ^ 64 * 2 ^ 64 := by
          exact Nat.mul_lt_mul'' ha ho
    _ = 2 ^ 128 := by norm_num
  unfold get_amount_out
  rw [Nat.mod_eq_of_lt hsum, Nat.mod_eq_of_lt hmul]

/-- Witness for `get_amount_out_spec` at concrete inputs. -/
theorem get_amount_out_spec_witness :
    get_amount_out 693000000 62183557590 517688030129106 =
      if (62183557590 : ℕ) + 693000000 = 0 then 0
      else 693000000 * 517688030129106 / (62183557590 + 693000000) :=
  get_amount_out_spec 693000000 62183557590 517688030129106
    (by norm_num) (by norm_num) (by norm_num)

/-- C9 counterexample: at `amount = u64::MAX` the saturating arithmetic in
`ceil_div` caps the product, so `calculate_fee` differs from the
mathematical ceiling of `amount * 12500 / 1_000_000`. -/
theorem calculate_fee_not_exact_ceiling :
    calculate_fee (2 ^ 64 - 1) (TRADE_FEE_RATE + FEE_RATE) = 18446744073709 ∧
    ((2 ^ 64 - 1) * (TRADE_FEE_RATE + FEE_RATE) + 999999) / 1000000 = 230584300921369396 ∧
    (18446744073709 : ℕ) ≠ 230584300921369396 := by
  refine ⟨?_, by norm_num [TRADE_FEE_RATE, FEE_RATE], by norm_num⟩
  unfold calculate_fee ceil_div satAdd64 satMul64 TRADE_FEE_RATE FEE_RATE
    FEE_RATE_DENOMINATOR_VALUE u64Max
  norm_num

/-- C9 (amended): whenever `amount * 12500 + 999999` fits in `u64` (no
saturation), `calculate_fee(amount, TRADE_FEE_RATE + FEE_RATE)` equals the
mathematical ceiling of `amount * 12500 / 1_000_000`. -/
theorem calculate_fee_exact_ceiling (amount : ℕ)
    (h : amount * 12500 + 999999 < 2 ^ 64) :
    calculate_fee amount (TRADE_FEE_RATE + FEE_RATE) =
      (amount * 12500 + 999999) / 1000000 := by
  unfold calculate_fee ceil_div satAdd64 satMul64 TRADE_FEE_RATE FEE_RATE
    FEE_RATE_DENOMINATOR_VALUE u64Max
  have h1 : amount * 12500 ≤ 2 ^ 64 - 1 := by omega
  have h2 : amount * 12500 + 999999 ≤ 2 ^ 64 - 1 := by omega
  simp only [if_neg (by norm_num : ¬(1000000 : ℕ) = 0)]
  rw [min_eq_left h1,
    min_eq_left (show amount * 12500 + (1000000 - 1) ≤ 2 ^ 64 - 1 by omega)]

/-- Witness for `calculate_fee_exact_ceiling` at a concrete input. -/
theorem calculate_fee_exact_ceiling_witness :
    calculate_fee 693000000 (TRADE_FEE_RATE + FEE_RATE) =
      (693000000 * 12500 + 999999) / 1000000 :=
  calculate_fee_exact_ceiling 693000000 (by norm_num)

/-! ## Theorems: decision engine -/

/-- C1: the entry trigger's sign is inverted relative to the claim. At the
spec's Arm-and-Buy scenario `prev = 100, new = 98.5, entry_percent = 1.0`
(a 1.5% drop, at least the threshold) the code does **not** fire a BUY,
while at `new = 101.5` (a 1.5% price increase) it **does** fire: the code
fires exactly when `((prev - new)/prev) * 100 <= -entry_percent`. -/
theorem buyDecision_fires_on_rise_not_drop :
    buyDecision 100 (197 / 2) 1 = false ∧ buyDecision 100 (203 / 2) 1 = true := by
  constructor <;> norm_num [buyDecision]

/-- C4: the exit triggers are evaluated in the fixed priority order
take-profit, stop-loss, forced (`auto_exit = 0`), timeout; at most one
fires per event, and when both the TP and the SL condition hold, TP wins. -/
theorem exitDecision_priority (new : ℚ) (bought_price : Option ℚ)
    (take_profit stop_loss : ℚ) (auto_exit : ℕ) (bought_at : Option ℤ) (now : ℤ) :
    (longPercent new bought_price ≥ take_profit →
      exitDecision new bought_price take_profit stop_loss auto_exit bought_at now =
        some .takeProfit) ∧
    (¬ longPercent new bought_price ≥ take_profit →
      longPercent new bought_price ≤ -stop_loss →
      exitDecision new bought_price take_profit stop_loss auto_exit bought_at now =
        some .stopLoss) ∧
    (¬ longPercent new bought_price ≥ take_profit →
      ¬ longPercent new bought_price ≤ -stop_loss → auto_exit = 0 →
      exitDecision new bought_price take_profit stop_loss auto_exit bought_at now =
        some .forced) ∧
    (¬ longPercent new bought_price ≥ take_profit →
      ¬ longPercent new bought_price ≤ -stop_loss → auto_exit ≠ 0 →
      ∀ t, bought_at = some t → now - t > autoExitMs auto_exit →
      exitDecision new bought_price take_profit stop_loss auto_exit bought_at now =
        some .timeout) := by
  refine ⟨fun h1 => ?_, fun h1 h2 => ?_, fun h1 h2 h3 => ?_, fun h1 h2 h3 t ht h4 => ?_⟩
  · simp [exitDecision, h1]
  · simp [exitDecision, h1, h2]
  · simp [exitDecision, h1, h2, h3]
  · simp [exitDecision, h1, h2, h3, ht, h4]

/-- Witness for `exitDecision_priority`: with `bought_price = 100`,
`new = 100` the PnL is `0`; with `take_profit = 0` and `stop_loss = 0` the
TP and SL conditions hold simultaneously and TP wins. -/
theorem exitDecision_priority_witness :
    exitDecision 100 (some 100) 0 0 5 (some 0) 0 = some .takeProfit :=
  (exitDecision_priority 100 (some 100) 0 0 5 (some 0) 0).1
    (by norm_num [longPercent])

/-! ## Theorems: signature confirmation -/

/-- On a signature mismatch (or no stored signature) the confirmation tail
leaves the whole slot unchanged. -/
theorem confirmSignatureStep_frame (slot : RealPoolInfo) (ev : ConfirmEvent)
    (h : slot.signature ≠ some ev.signature) :
    confirmSignatureStep slot ev = slot := by
  unfold confirmSignatureStep
  cases hw : ev.wsol_ata_present
  · simp
  · cases hs : slot.signature with
    | none => simp
    | some sig =>
      have hne : ¬ sig = ev.signature := fun e => h (by rw [hs, e])
      simp [hne]

/-- C5: the per-event slot transition of `process_user_data` (price/ix
rebuild followed by signature confirmation) changes `is_bought` only when
the event's transaction signature equals the signature previously stored on
the slot at submission time; any other event leaves `is_bought` unchanged. -/
theorem is_bought_flips_only_on_signature_match (slot : RealPoolInfo)
    (new_price : ℚ) (new_ixs : List Ix) (ev : ConfirmEvent)
    (h : slot.signature ≠ some ev.signature) :
    (processUserDataStep slot new_price new_ixs ev).is_bought = slot.is_bought := by
  unfold processUserDataStep
  rw [confirmSignatureStep_frame _ _ (show (rebuildStep slot new_price new_ixs).signature ≠ some ev.signature from h)]
  rfl

/-- Witness for `is_bought_flips_only_on_signature_match`: an event with a
foreign signature leaves the long slot long. -/
theorem is_bought_flips_only_on_signature_match_witness :
    (processUserDataStep slotLong 100 [] ⟨"other", 5000, true, 0, 0, 1000⟩).is_bought =
      slotLong.is_bought :=
  is_bought_flips_only_on_signature_match slotLong 100 []
    ⟨"other", 5000, true, 0, 0, 1000⟩ (by simp [slotLong])

/-- C2: on the sell confirmation the source overwrites
`last_output_lamports_delta` with `post - pre` **before** re-reading it for
the subtraction, so the stored `last_profit_sol` is `0` — not the positive
`(post - pre - prior)/10^9 = 0.012345678` the claim requires for this
profitable first round-trip. -/
theorem sell_confirmation_profit_is_zero :
    (confirmSignatureStep slotLong evSell).last_output_lamports_delta = some 12345678 ∧
    (confirmSignatureStep slotLong evSell).is_bought = false ∧
    (confirmSignatureStep slotLong evSell).last_profit_sol = some 0 ∧
    (0 : ℚ) ≠ (12345678 - 0) / 1000000000 := by
  refine ⟨?_, ?_, ?_, by norm_num⟩ <;>
    norm_num [confirmSignatureStep, slotLong, evSell]

/-! ## Theorems: swap builders -/

/-- C7 counterexample: at `amount_in = 10_000_000` the wrap transfer of the
Raydium buy leg carries `10_000_000` lamports, not the `11_000_000`
(`amount_in * 1.1`) the claim asserts for both AMM families. -/
theorem raydium_wrap_is_not_1_1x :
    wrapTransferLamports (raydiumBuyIxs "pk" "WSOL" "MINT" 10000000 42) =
      some 10000000 ∧
    pumpWrapAmount 10000000 = 11000000 ∧
    (10000000 : ℕ) ≠ 11000000 := by
  refine ⟨rfl, ?_, by norm_num⟩
  have harg : ((10000000 : ℕ) : ℚ) * 11 / 10 = ((11000000 : ℤ) : ℚ) := by norm_num
  rw [pumpWrapAmount, harg, Int.floor_intCast]
  rfl

/-- C7 (amended): the `1.1` wrap factor belongs only to the PumpSwap
family. For every buy leg, the Raydium base-in builder's native-wrap step
transfers exactly `amount_in` lamports, while the PumpSwap builder's wrap
step transfers `floor(amount_in * 1.1)`. -/
theorem wrap_amount_by_family (owner input_mint output_mint base_mint : String)
    (amount_in minimum_amount_out required_token_amount lamports_with_slippage : ℕ) :
    wrapTransferLamports (raydiumBuyIxs owner input_mint output_mint
      amount_in minimum_amount_out) = some amount_in ∧
    wrapTransferLamports (pumpSwapBuyIxs owner base_mint
      amount_in required_token_amount lamports_with_slippage) =
      some (pumpWrapAmount amount_in) :=
  ⟨rfl, rfl⟩

/-! ## Theorems: submission pipeline -/

/-- C8: the pipeline writes the slot's signature only on a successful relay
submission. An empty prepared instruction list, a simulation that fails or
reports a non-empty `err`, and a failed relay call each produce a
structured error outcome and leave the slot exactly as it was. -/
theorem submit_mutates_slot_only_on_relay_success (slot : RealPoolInfo) (env : SubmitEnv) :
    ((buildAndSubmitSwapTransaction slot env).2 ≠ slot →
      ∃ data, env.relay_result = some data ∧
        (buildAndSubmitSwapTransaction slot env).1 = .okSuccess data ∧
        (buildAndSubmitSwapTransaction slot env).2 =
          { slot with signature := some data }) ∧
    (slot.swap_buy_ixs = [] →
      buildAndSubmitSwapTransaction slot env =
        (.okError "No swap instructions to submit", slot)) ∧
    ((env.sim_result = none ∨ ∃ e, env.sim_result = some (some e)) →
      (buildAndSubmitSwapTransaction slot env).2 = slot) ∧
    (env.relay_result = none → (buildAndSubmitSwapTransaction slot env).2 = slot) := by
  obtain ⟨ji, dok, sim, rel⟩ := env
  rcases sim with _ | (_ | e) <;> rcases rel with _ | data <;>
    simp only [buildAndSubmitSwapTransaction] <;>
    split_ifs <;>
    simp_all [List.isEmpty_iff]

/-- Witness for `submit_mutates_slot_only_on_relay_success`: a failed relay
call leaves the long slot untouched. -/
theorem submit_mutates_slot_only_on_relay_success_witness :
    (buildAndSubmitSwapTransaction slotLong ⟨true, true, some none, none⟩).2 =
      slotLong :=
  (submit_mutates_slot_only_on_relay_success slotLong
    ⟨true, true, some none, none⟩).2.2.2 rfl

/-! ## Theorems: lifecycle -/

/-- C6: `stop_bot` by case on the slot's position. Not long: the user is
removed from both the active-user registry and the position store. Long:
the registry is untouched and the store keeps every pool bucket and every
slot (`Forall₂` forces equal lengths), each slot changed at most in its
strategy's `auto_exit`, which is `0` for the user's slots in the bot's
pool bucket. -/
theorem stop_bot_cases (b : BotSettings) (bots : List BotSettings)
    (user_id : String) (st : EngineState) :
    (lookupIsBought st b.pool_address user_id = false →
      ∃ st', stopBot (b :: bots) user_id st = some ("Stopped bot", st') ∧
        (∀ u ∈ st'.user_list, u.user_id ≠ user_id) ∧
        (∀ pl ∈ st'.real_pool_info, ∀ i ∈ pl.2, i.user_bot_data.user_id ≠ user_id)) ∧
    (lookupIsBought st b.pool_address user_id = true →
      ∃ st', stopBot (b :: bots) user_id st = some ("Stopped bot", st') ∧
        st'.user_list = st.user_list ∧
        List.Forall₂ (fun pl pl' => pl.1 = pl'.1 ∧
          List.Forall₂ (fun i i' =>
            (i' = i ∨ i' = setAutoExitZero i) ∧
            (pl.1 = b.pool_address → i.user_bot_data.user_id = user_id →
              i' = setAutoExitZero i)) pl.2 pl'.2)
          st.real_pool_info st'.real_pool_info) := by
  constructor
  · intro h
    refine ⟨⟨st.user_list.filter (fun u => u.user_id ≠ user_id),
        (st.real_pool_info.map
          (fun pl => (pl.1, pl.2.filter (fun i => i.user_bot_data.user_id ≠ user_id)))).filter
          (fun pl => ¬ pl.2.isEmpty)⟩, by simp [stopBot, h], ?_, ?_⟩
    · intro u hu
      simp only [List.mem_filter, decide_eq_true_eq] at hu
      exact hu.2
    · intro pl hpl i hi
      simp only [List.mem_filter, List.mem_map] at hpl
      obtain ⟨⟨q, hq, rfl⟩, -⟩ := hpl
      simp only [List.mem_filter, decide_eq_true_eq] at hi
      exact hi.2
  · intro h
    refine ⟨⟨st.user_list, st.real_pool_info.map (fun pl =>
        if pl.1 = b.pool_address then
          (pl.1, pl.2.map (fun i =>
            if i.user_bot_data.user_id = user_id then setAutoExitZero i else i))
        else pl)⟩, by simp [stopBot, h], rfl, ?_⟩
    rw [List.forall₂_map_right_iff, List.forall₂_same]
    intro pl _
    by_cases hp : pl.1 = b.pool_address
    · rw [if_pos hp]
      refine ⟨rfl, ?_⟩
      rw [List.forall₂_map_right_iff, List.forall₂_same]
      intro i _
      by_cases hu : i.user_bot_data.user_id = user_id
      · rw [if_pos hu]
        exact ⟨Or.inr rfl, fun _ _ => rfl⟩
      · rw [if_neg hu]
        exact ⟨Or.inl rfl, fun _ h' => absurd h' hu⟩
    · rw [if_neg hp]
      refine ⟨rfl, ?_⟩
      rw [List.forall₂_same]
      intro i _
      exact ⟨Or.inl rfl, fun h' _ => absurd h' hp⟩

/-- Witness for `stop_bot_cases`: stopping sample user `user1` with no open
position on an empty engine state removes it from both structures. -/
theorem stop_bot_cases_witness :
    ∃ st', stopBot [botSettingsA] "user1" ⟨[userBotDataA], []⟩ =
        some ("Stopped bot", st') ∧
      (∀ u ∈ st'.user_list, u.user_id ≠ "user1") ∧
      (∀ pl ∈ st'.real_pool_info, ∀ i ∈ pl.2, i.user_bot_data.user_id ≠ "user1") :=
  (stop_bot_cases botSettingsA [] "user1" ⟨[userBotDataA], []⟩).1
    (by simp [lookupIsBought])

/-- C10: with an empty repository lookup, `stop_bot` hits the
`bot.first().unwrap()` panic (embedded as `none`), whereas `start_bot`'s
preflight returns the `NotFound` error for the same situation. -/
theorem stop_bot_panics_on_empty_bot_lookup (user_id : String) (st : EngineState) :
    stopBot [] user_id st = none ∧
    startBotLookupChecks true [] = .error (.notFound "Bot not found") :=
  ⟨rfl, rfl⟩

end TradingBot
